import Mathlib

/-
Shallow embedding of the tabris-js crypto facade (src/tabris/Crypto.ts).

The facade validates JavaScript runtime values and drives an asynchronous
Provider (the native layer).  Values, validators and each operation of the
source file are translated below; the validator helpers (allowOnlyValues,
allowOnlyKeys, checkType, getBuffer) and the `_CryptoKey` native wrapper are
repository code that is not part of the provided sources, so they are
modelled from the specification, as marked on their doc comments.
-/

set_option autoImplicit false

namespace Tabris

/-- JavaScript numbers as far as the crypto facade inspects them: either NaN
or a finite value (modelled as an integer; no facade branch depends on the
fractional part). -/
inductive JSNumber where
  | nan
  | fin (q : Int)
deriving DecidableEq

/-- Element kinds of ArrayBuffer views (TypedArrays). -/
inductive ViewKind where
  | int8 | uint8 | uint8c | int16 | uint16 | int32 | uint32 | float32 | float64
deriving DecidableEq

/-- A typed-array view: element kind, byte offset and byte length into an
underlying ArrayBuffer, which is carried as the full list of buffer bytes. -/
structure BufferView where
  kind : ViewKind
  byteOffset : Nat
  byteLength : Nat
  buffer : List Nat
deriving DecidableEq

/-- The JavaScript runtime values the crypto facade dispatches on. -/
inductive JSVal where
  | undefV
  | boolV (b : Bool)
  | numV (n : JSNumber)
  | strV (s : String)
  | bufV (bytes : List Nat)
  | viewV (v : BufferView)
  | arrV (elems : List JSVal)
  | objV (fields : List (String × JSVal))
  | keyV (cid : Nat)

/-- Errors raised by the facade; one constructor per throw/reject site of the
source and its validators. -/
inductive Err where
  | notEnoughArgs (fn : String)
  | argumentCount (expected got : Nat)
  | badArrayType
  | unrecognizedName
  | invalidValue (field : String)
  | disallowedKey (key : String)
  | typeMismatch (field : String)
  | aesGcmNotSupported
  | notEnoughRandomBytes
  | internalType
  | providerError (reason : String)
deriving DecidableEq

/-- Modelled from the spec (section 7): AlgorithmMismatchError is the
ValidationError subtype for unsupported algorithm/name combinations — the
bare AES-GCM derive rejection, enum failures on an algorithm or
algorithm.name field, and digest's unrecognized-name error. -/
def Err.isAlgorithmMismatch : Err → Bool
  | .aesGcmNotSupported => true
  | .unrecognizedName => true
  | .invalidValue field => field == "algorithm" || field == "algorithm.name"
  | _ => false

/-- Outcome of one of the async facade methods: a `throw` in the method body
(surfaced to callers as a rejection, because the methods are `async`), an
explicit rejection, or a resolution.  `fault` marks an exception escaping
inside a native completion callback, after which the promise never settles. -/
inductive AsyncResult (α : Type) where
  | thrown (e : Err)
  | rejected (e : Err)
  | resolved (a : α)
  | fault (e : Err)

/-- Strict equality of a runtime value against a string literal; the only
identity comparisons the facade performs are against string constants. -/
def jsValEqStr : JSVal → String → Bool
  | .strV s, t => s == t
  | _, _ => false

/-- `Object.keys`: own enumerable keys — the field names of plain objects,
index strings for strings and arrays, empty for other primitives. -/
def jsKeys : JSVal → List String
  | .objV fields => fields.map Prod.fst
  | .strV s => (List.range s.length).map toString
  | .arrV elems => (List.range elems.length).map toString
  | _ => []

/-- Property access `v[k]`: `undefined` when the key is absent or the value
is not a plain object. -/
def jsGet (v : JSVal) (k : String) : JSVal :=
  match v with
  | .objV fields =>
    match fields.lookup k with
    | some x => x
    | none => .undefV
  | _ => .undefV

/-- Modelled from the spec: `requireEnumMember` (util.allowOnlyValues, not
under the provided sources) — fails unless the value is exactly one of the
allowed string values. -/
def allowOnlyValues (value : JSVal) (allowed : List String) (field : String) :
    Except Err Unit :=
  if allowed.any (fun s => jsValEqStr value s) then .ok ()
  else .error (.invalidValue field)

/-- Modelled from the spec: `requireKeysSubset` (util.allowOnlyKeys, not
under the provided sources) — fails on the first own key outside the allowed
set. -/
def allowOnlyKeys (value : JSVal) (allowed : List String) : Except Err Unit :=
  match (jsKeys value).find? (fun k => !(allowed.contains k)) with
  | some k => .error (.disallowedKey k)
  | none => .ok ()

/-- The runtime type tags the facade checks against. -/
inductive TypeKind where
  | arrayBufferT | numberT | booleanT | arrayT | cryptoKeyT | stringT | objectT
deriving DecidableEq

/-- Runtime shape test used by `checkType`; every non-primitive counts as an
Object. -/
def jsMatchesType : JSVal → TypeKind → Bool
  | .bufV _, .arrayBufferT => true
  | .numV _, .numberT => true
  | .boolV _, .booleanT => true
  | .arrV _, .arrayT => true
  | .keyV _, .cryptoKeyT => true
  | .strV _, .stringT => true
  | .objV _, .objectT => true
  | .arrV _, .objectT => true
  | .bufV _, .objectT => true
  | .viewV _, .objectT => true
  | .keyV _, .objectT => true
  | _, _ => false

/-- Modelled from the spec: `requireType` (checkType.ts, not under the
provided sources) — fails when the value's runtime shape does not match the
expected kind; `nullable` permits `undefined`. -/
def checkType (value : JSVal) (kind : TypeKind) (field : String)
    (nullable : Bool) : Except Err Unit :=
  match value, nullable with
  | .undefV, true => .ok ()
  | v, _ => if jsMatchesType v kind then .ok () else .error (.typeMismatch field)

/-- Whether a view kind is a floating-point element kind. -/
def isFloatKind : ViewKind → Bool
  | .float32 => true
  | .float64 => true
  | _ => false

/-- Modelled from the spec: `requireBufferLike` (util.getBuffer, not under the
provided sources) — the normalized underlying byte buffer of an ArrayBuffer
or of a non-float view; floating-point views and non-buffers yield nothing. -/
def getBuffer : JSVal → Option (List Nat)
  | .bufV bytes => some bytes
  | .viewV v => if isFloatKind v.kind then none else some v.buffer
  | _ => none

/-- The source idiom `checkType(getBuffer(value), ArrayBuffer, {name})`. -/
def checkBufferType (value : JSVal) (field : String) : Except Err Unit :=
  match getBuffer value with
  | some _ => .ok ()
  | none => .error (.typeMismatch field)

/-- `new Uint8Array(buffer).set(values)`: overwrite the first `values.length`
bytes of the whole underlying buffer (starting at offset 0), keep the rest. -/
def jsBufferSetFromStart (buffer values : List Nat) : List Nat :=
  values ++ buffer.drop values.length

/-- NativeCrypto.getRandomValues: request `byteLength` random bytes from the
Provider; a response of any other length throws before the buffer is
touched; otherwise the bytes are written at the start of the view's
underlying buffer.  The first component is the post-call view, so the error
case carries the caller's view unmodified. -/
def nativeGetRandomValues (typedArray : BufferView) (providerBytes : List Nat) :
    BufferView × Option Err :=
  if providerBytes.length ≠ typedArray.byteLength then
    (typedArray, some .notEnoughRandomBytes)
  else
    ({ typedArray with buffer := jsBufferSetFromStart typedArray.buffer providerBytes },
     none)

/-- Result of Crypto.getRandomValues: the byte count requested from the
Provider (`none` when validation failed before any Provider call) and the
synchronous result. -/
structure RandomResult where
  providerRequest : Option Nat
  result : Except Err BufferView

/-- Crypto.getRandomValues: the arity guard is `arguments.length === 0` only;
then the view/float check; then the native call. -/
def cryptoGetRandomValues (argCount : Nat) (typedArray : JSVal)
    (providerBytes : List Nat) : RandomResult :=
  if argCount = 0 then
    ⟨none, .error (.notEnoughArgs "Crypto.getRandomValues")⟩
  else
    match typedArray with
    | .viewV v =>
      if isFloatKind v.kind then ⟨none, .error .badArrayType⟩
      else
        match nativeGetRandomValues v providerBytes with
        | (_, some e) => ⟨some v.byteLength, .error e⟩
        | (w, none) => ⟨some v.byteLength, .ok w⟩
    | _ => ⟨none, .error .badArrayType⟩

/-- The bytes visible through a view: `byteLength` bytes starting at
`byteOffset` of the underlying buffer. -/
def viewBytes (v : BufferView) : List Nat :=
  (v.buffer.drop v.byteOffset).take v.byteLength

/-- The valid digest algorithm names (source `validAlgorithms`). -/
def validAlgorithms : List String := ["SHA-1", "SHA-256", "SHA-384", "SHA-512"]

/-- NativeCrypto.subtleDigest completion: a Provider error becomes a rejection
wrapping the reason; an empty Provider buffer makes the success callback
throw an internal type error, so the promise never resolves. -/
def subtleDigestCompletion (provider : Except String (List Nat)) :
    AsyncResult (List Nat) :=
  match provider with
  | .error reason => .rejected (.providerError reason)
  | .ok bytes => if bytes.length = 0 then .fault .internalType else .resolved bytes

/-- SubtleCrypto.digest: every validation failure is an explicit
`Promise.reject`; only fully valid calls reach the Provider. -/
def digest (argCount : Nat) (algorithm data : JSVal)
    (provider : Except String (List Nat)) : AsyncResult (List Nat) :=
  if argCount < 2 then .rejected (.notEnoughArgs "SubtleCrypto.digest")
  else if !(validAlgorithms.any (fun s => jsValEqStr algorithm s)) then
    .rejected .unrecognizedName
  else
    match getBuffer data with
    | none => .rejected .badArrayType
    | some _ => subtleDigestCompletion provider

/-- The facade's CryptoKey object as observable state: stored algorithm,
extractable flag, copied usages sequence, optional type tag. -/
structure CryptoKeyVal where
  algorithm : JSVal
  extractable : Bool
  usages : List JSVal
  type : Option String

/-- The boolean value of a validated `extractable` argument. -/
def jsAsBool : JSVal → Bool
  | .boolV b => b
  | _ => false

/-- The element list of a validated `keyUsages` argument; `concat()` copies
it, so the stored list is the elements of the caller's array. -/
def jsAsArr : JSVal → List JSVal
  | .arrV elems => elems
  | _ => []

/-- The algorithm branch of SubtleCrypto.importKey (source lines 77-88): bare
strings restricted to ECDH, AES-GCM and HKDF; structured descriptors to
name in ECDH or AES-GCM, with ECDH-specific field checks. -/
def importKeyAlgorithmValidate (algorithm : JSVal) : Except Err Unit :=
  match algorithm with
  | .strV _ => allowOnlyValues algorithm ["ECDH", "AES-GCM", "HKDF"] "algorithm"
  | _ =>
    match checkType algorithm .objectT "algorithm" false with
    | .error e => .error e
    | .ok _ =>
    match allowOnlyValues (jsGet algorithm "name") ["ECDH", "AES-GCM"] "algorithm.name" with
    | .error e => .error e
    | .ok _ =>
      if jsValEqStr (jsGet algorithm "name") "ECDH" then
        match allowOnlyKeys algorithm ["name", "namedCurve"] with
        | .error e => .error e
        | .ok _ => allowOnlyValues (jsGet algorithm "namedCurve") ["P-256"] "algorithm.namedCurve"
      else
        allowOnlyKeys algorithm ["name"]

/-- The full validation chain of SubtleCrypto.importKey (source lines 75-90),
in source order. -/
def importKeyValidate (format keyData algorithm extractable keyUsages : JSVal) :
    Except Err Unit :=
  match allowOnlyValues format ["spki", "pkcs8", "raw"] "format" with
  | .error e => .error e
  | .ok _ =>
  match checkBufferType keyData "keyData" with
  | .error e => .error e
  | .ok _ =>
  match importKeyAlgorithmValidate algorithm with
  | .error e => .error e
  | .ok _ =>
  match checkType extractable .booleanT "extractable" false with
  | .error e => .error e
  | .ok _ => checkType keyUsages .arrayT "keyUsages" false

/-- The descriptor-collapsing rule (source lines 92-94): a descriptor whose
only own key is `name` becomes the bare value of that field. -/
def algorithmInternalOf (algorithm : JSVal) : JSVal :=
  if jsKeys algorithm = ["name"] then jsGet algorithm "name" else algorithm

/-- SubtleCrypto.importKey: exact arity 5, validation chain, then the
Provider-side import step (modelled from the spec, section 6: one-shot
success or error) and the CryptoKey carrying the normalized algorithm and a
copy of the usages. -/
def importKey (argCount : Nat) (format keyData algorithm extractable keyUsages : JSVal)
    (provider : Except String Unit) : AsyncResult CryptoKeyVal :=
  if argCount ≠ 5 then .thrown (.argumentCount 5 argCount)
  else
    match importKeyValidate format keyData algorithm extractable keyUsages with
    | .error e => .thrown e
    | .ok _ =>
      match provider with
      | .error reason => .rejected (.providerError reason)
      | .ok _ =>
        .resolved { algorithm := algorithmInternalOf algorithm
                  , extractable := jsAsBool extractable
                  , usages := jsAsArr keyUsages
                  , type := none }

/-- The key set a structured derive descriptor may carry (source line 358). -/
def deriveDescriptorKeys : List String :=
  ["name", "namedCurve", "public", "hash", "salt", "info"]

/-- checkDeriveAlgorithm (source lines 349-368): accepts bare HKDF, rejects
bare AES-GCM outright, and for structured descriptors restricts the keys,
requires name in ECDH or HKDF, then checks the name-specific fields. -/
def checkDeriveAlgorithm (algorithm : JSVal) : Except Err Unit :=
  if jsValEqStr algorithm "HKDF" then .ok ()
  else if jsValEqStr algorithm "AES-GCM" then .error .aesGcmNotSupported
  else
    match allowOnlyKeys algorithm deriveDescriptorKeys with
    | .error e => .error e
    | .ok _ =>
    match allowOnlyValues (jsGet algorithm "name") ["ECDH", "HKDF"] "algorithm.name" with
    | .error e => .error e
    | .ok _ =>
      if jsValEqStr (jsGet algorithm "name") "ECDH" then
        match allowOnlyValues (jsGet algorithm "namedCurve") ["P-256"] "algorithm.namedCurve" with
        | .error e => .error e
        | .ok _ => checkType (jsGet algorithm "public") .cryptoKeyT "algorithm.public" false
      else if jsValEqStr (jsGet algorithm "name") "HKDF" then
        match checkType (jsGet algorithm "hash") .stringT "algorithm.hash" false with
        | .error e => .error e
        | .ok _ =>
        match checkBufferType (jsGet algorithm "salt") "algorithm.salt" with
        | .error e => .error e
        | .ok _ => checkBufferType (jsGet algorithm "info") "algorithm.info"
      else .ok ()

/-- Provider-visible events of the derive operations, in chronological order;
`settle` marks the point where the operation's own result is produced. -/
inductive DeriveEvent where
  | createKey | deriveCall | exportCall | dispose | settle
deriving DecidableEq

/-- The validation chain of SubtleCrypto.deriveBits (source lines 111-113). -/
def deriveBitsValidate (algorithm baseKey length : JSVal) : Except Err Unit :=
  match checkDeriveAlgorithm algorithm with
  | .error e => .error e
  | .ok _ =>
  match checkType baseKey .cryptoKeyT "baseKey" false with
  | .error e => .error e
  | .ok _ => checkType length .numberT "length" false

/-- SubtleCrypto.deriveBits with its transient key.  The Provider-side steps
are modelled from the spec (sections 4.2 and 6, since `_CryptoKey` and
`subtleExportKey` live outside the provided sources): `derive` is one
Provider call, `dispose` releases the transient key.  The event order is the
source's `try`/`finally`: on derive rejection the `finally` disposes before
the rejection settles; on success the export request is issued inside the
promise executor, the `finally` disposes, and the export completion settles
the result afterwards. -/
def deriveBits (argCount : Nat) (algorithm baseKey length : JSVal)
    (deriveOutcome : Except String Unit) (exportOutcome : Except String (List Nat)) :
    AsyncResult (List Nat) × List DeriveEvent :=
  if argCount ≠ 3 then (.thrown (.argumentCount 3 argCount), [])
  else
    match deriveBitsValidate algorithm baseKey length with
    | .error e => (.thrown e, [])
    | .ok _ =>
      match deriveOutcome with
      | .error reason =>
        (.rejected (.providerError reason),
         [.createKey, .deriveCall, .dispose, .settle])
      | .ok _ =>
        match exportOutcome with
        | .error reason =>
          (.rejected (.providerError reason),
           [.createKey, .deriveCall, .exportCall, .dispose, .settle])
        | .ok bytes =>
          (.resolved bytes,
           [.createKey, .deriveCall, .exportCall, .dispose, .settle])

/-- The validation chain of SubtleCrypto.deriveKey (source lines 135-141). -/
def deriveKeyValidate (algorithm baseKey derivedKeyAlgorithm extractable keyUsages : JSVal) :
    Except Err Unit :=
  match checkDeriveAlgorithm algorithm with
  | .error e => .error e
  | .ok _ =>
  match allowOnlyKeys derivedKeyAlgorithm ["name", "length"] with
  | .error e => .error e
  | .ok _ =>
  match allowOnlyValues (jsGet derivedKeyAlgorithm "name") ["AES-GCM"] "derivedKeyAlgorithm.name" with
  | .error e => .error e
  | .ok _ =>
  match checkType (jsGet derivedKeyAlgorithm "length") .numberT "derivedKeyAlgorithm.length" false with
  | .error e => .error e
  | .ok _ =>
  match checkType baseKey .cryptoKeyT "baseKey" false with
  | .error e => .error e
  | .ok _ =>
  match checkType extractable .booleanT "extractable" false with
  | .error e => .error e
  | .ok _ => checkType keyUsages .arrayT "keyUsages" false

/-- SubtleCrypto.deriveKey: validation, one Provider derive call (modelled
from the spec, section 6), then the persistent secret key. -/
def deriveKey (argCount : Nat)
    (algorithm baseKey derivedKeyAlgorithm extractable keyUsages : JSVal)
    (deriveOutcome : Except String Unit) :
    AsyncResult CryptoKeyVal × List DeriveEvent :=
  if argCount ≠ 5 then (.thrown (.argumentCount 5 argCount), [])
  else
    match deriveKeyValidate algorithm baseKey derivedKeyAlgorithm extractable keyUsages with
    | .error e => (.thrown e, [])
    | .ok _ =>
      match deriveOutcome with
      | .error reason =>
        (.rejected (.providerError reason), [.createKey, .deriveCall, .settle])
      | .ok _ =>
        (.resolved { algorithm := algorithm
                   , extractable := jsAsBool extractable
                   , usages := jsAsArr keyUsages
                   , type := some "secret" },
         [.createKey, .deriveCall, .settle])

/-- JS `Number` coercion as far as validated facade values require; the
string-parsing cases are never exercised by values that pass validation. -/
def jsToNumber : JSVal → JSNumber
  | .numV n => n
  | .boolV b => .fin (if b then 1 else 0)
  | _ => .nan

/-- The JS global `isNaN` (coercing). -/
def jsIsNaN (v : JSVal) : Bool :=
  match jsToNumber v with
  | .nan => true
  | .fin _ => false

/-- The algorithm/key/data record handed to the Provider by
NativeCrypto.subtleEncrypt and subtleDecrypt. -/
structure AeadCall where
  name : JSVal
  iv : Option (List Nat)
  tagLength : JSVal
  key : JSVal
  data : JSVal

/-- The validation chain shared verbatim by SubtleCrypto.encrypt and
SubtleCrypto.decrypt (source lines 164-169 and 187-192). -/
def aeadValidate (algorithm key data : JSVal) : Except Err Unit :=
  match allowOnlyKeys algorithm ["name", "iv", "tagLength"] with
  | .error e => .error e
  | .ok _ =>
  match allowOnlyValues (jsGet algorithm "name") ["AES-GCM"] "algorithm.name" with
  | .error e => .error e
  | .ok _ =>
  match checkType (jsGet algorithm "tagLength") .numberT "algorithm.tagLength" true with
  | .error e => .error e
  | .ok _ =>
  match checkBufferType (jsGet algorithm "iv") "algorithm.iv" with
  | .error e => .error e
  | .ok _ =>
  match checkType key .cryptoKeyT "key" false with
  | .error e => .error e
  | .ok _ => checkBufferType data "data"

/-- NativeCrypto.subtleEncrypt parameter construction (source lines 333-341):
a NaN (or absent, hence NaN after coercion) tagLength becomes 128, any other
value is forwarded unchanged; data is normalized via getBuffer. -/
def mkEncryptCall (algorithm key data : JSVal) : AeadCall :=
  { name := jsGet algorithm "name"
  , iv := getBuffer (jsGet algorithm "iv")
  , tagLength :=
      if jsIsNaN (jsGet algorithm "tagLength") then .numV (.fin 128)
      else jsGet algorithm "tagLength"
  , key := key
  , data :=
      match getBuffer data with
      | some bytes => .bufV bytes
      | none => .undefV }

/-- NativeCrypto.subtleDecrypt parameter construction (source lines 294-304):
identical tagLength handling; data is normalized by taking a view's
underlying buffer. -/
def mkDecryptCall (algorithm key data : JSVal) : AeadCall :=
  { name := jsGet algorithm "name"
  , iv := getBuffer (jsGet algorithm "iv")
  , tagLength :=
      if jsIsNaN (jsGet algorithm "tagLength") then .numV (.fin 128)
      else jsGet algorithm "tagLength"
  , key := key
  , data :=
      match data with
      | .viewV v => .bufV v.buffer
      | d => d }

/-- SubtleCrypto.encrypt: exact arity 3, validation, then one Provider call
whose parameters are `mkEncryptCall`; the second component records the call
handed to the Provider (`none` when validation failed first). -/
def encrypt (argCount : Nat) (algorithm key data : JSVal)
    (provider : Except String (List Nat)) :
    AsyncResult (List Nat) × Option AeadCall :=
  if argCount ≠ 3 then (.thrown (.argumentCount 3 argCount), none)
  else
    match aeadValidate algorithm key data with
    | .error e => (.thrown e, none)
    | .ok _ =>
      match provider with
      | .error reason =>
        (.rejected (.providerError reason), some (mkEncryptCall algorithm key data))
      | .ok bytes => (.resolved bytes, some (mkEncryptCall algorithm key data))

/-- SubtleCrypto.decrypt: exact arity 3, the same validation chain, then one
Provider call whose parameters are `mkDecryptCall`. -/
def decrypt (argCount : Nat) (algorithm key data : JSVal)
    (provider : Except String (List Nat)) :
    AsyncResult (List Nat) × Option AeadCall :=
  if argCount ≠ 3 then (.thrown (.argumentCount 3 argCount), none)
  else
    match aeadValidate algorithm key data with
    | .error e => (.thrown e, none)
    | .ok _ =>
      match provider with
      | .error reason =>
        (.rejected (.providerError reason), some (mkDecryptCall algorithm key data))
      | .ok bytes => (.resolved bytes, some (mkDecryptCall algorithm key data))

/-! Helper lemmas shared by the claim theorems. -/

theorem jsValEqStr_eq_true_iff (v : JSVal) (s : String) :
    jsValEqStr v s = true ↔ v = .strV s := by
  cases v <;> simp [jsValEqStr]

theorem allowOnlyKeys_ok_of_subset (v : JSVal) (allowed : List String)
    (h : ∀ k ∈ jsKeys v, k ∈ allowed) : allowOnlyKeys v allowed = .ok () := by
  unfold allowOnlyKeys
  have hfind : (jsKeys v).find? (fun k => !(allowed.contains k)) = none := by
    rw [List.find?_eq_none]
    intro x hx
    simp [h x hx]
  rw [hfind]

/-- Claim C7 (confirmed): every call to importKey with an argument count
different from exactly 5 fails with an argument-count error, whatever the
supplied arguments and whatever the Provider would have answered. -/
theorem c7_importKey_arity (argCount : Nat)
    (format keyData algorithm extractable keyUsages : JSVal)
    (provider : Except String Unit) (h : argCount ≠ 5) :
    importKey argCount format keyData algorithm extractable keyUsages provider =
      .thrown (.argumentCount 5 argCount) := by
  simp [importKey, h]

/-- Witness for C7: a 4-argument call fails with the argument-count error
even though the four supplied arguments are otherwise valid. -/
theorem c7_importKey_arity_witness :
    importKey 4 (.strV "raw") (.bufV [1]) (.strV "AES-GCM") (.boolV false)
      (.arrV []) (.ok ()) = .thrown (.argumentCount 5 4) :=
  c7_importKey_arity 4 (.strV "raw") (.bufV [1]) (.strV "AES-GCM") (.boolV false)
    (.arrV []) (.ok ()) (by decide)

/-- Claim C9 (confirmed): the native getRandomValues step fails with the
insufficient-random-bytes error whenever the Provider's returned byte length
differs from the requested view byte length in either direction, and then
returns the caller's view unmodified. -/
theorem c9_native_random_length_mismatch (typedArray : BufferView)
    (providerBytes : List Nat) (h : providerBytes.length ≠ typedArray.byteLength) :
    nativeGetRandomValues typedArray providerBytes =
      (typedArray, some .notEnoughRandomBytes) := by
  simp [nativeGetRandomValues, h]

/-- Witness for C9: the Provider returns two bytes where one was requested —
more than requested — and the call still fails, leaving the view unchanged. -/
theorem c9_native_random_length_mismatch_witness :
    nativeGetRandomValues ⟨.uint8, 0, 1, [7]⟩ [1, 2] =
      (⟨.uint8, 0, 1, [7]⟩, some .notEnoughRandomBytes) :=
  c9_native_random_length_mismatch ⟨.uint8, 0, 1, [7]⟩ [1, 2] (by decide)

/-- Counterexample for claim C8: a call to getRandomValues with two arguments
(argument count different from 1) does not fail with an argument-count
error — it succeeds and even issues the Provider call. -/
theorem c8_counterexample :
    cryptoGetRandomValues 2 (.viewV ⟨.uint8, 0, 1, [0]⟩) [5] =
      ⟨some 1, .ok ⟨.uint8, 0, 1, [5]⟩⟩ := rfl

/-- Claim C8 (corrected): the arity guard of getRandomValues only rejects
zero-argument calls; any call with at least one argument behaves exactly
like the one-argument call, the extra arguments being ignored. -/
theorem c8_getRandomValues_arity (argCount : Nat) (typedArray : JSVal)
    (providerBytes : List Nat) :
    (argCount = 0 → cryptoGetRandomValues argCount typedArray providerBytes =
      ⟨none, .error (.notEnoughArgs "Crypto.getRandomValues")⟩) ∧
    (1 ≤ argCount → cryptoGetRandomValues argCount typedArray providerBytes =
      cryptoGetRandomValues 1 typedArray providerBytes) := by
  constructor
  · intro h
    simp [cryptoGetRandomValues, h]
  · intro h
    have h0 : argCount ≠ 0 := by omega
    simp [cryptoGetRandomValues, h0]

/-- Witness for C8: at zero arguments the argument-count error is raised, and
a three-argument call coincides with the one-argument call. -/
theorem c8_getRandomValues_arity_witness :
    cryptoGetRandomValues 0 (.viewV ⟨.uint8, 0, 1, [0]⟩) [5] =
      ⟨none, .error (.notEnoughArgs "Crypto.getRandomValues")⟩ ∧
    cryptoGetRandomValues 3 (.viewV ⟨.uint8, 0, 1, [0]⟩) [5] =
      cryptoGetRandomValues 1 (.viewV ⟨.uint8, 0, 1, [0]⟩) [5] :=
  ⟨(c8_getRandomValues_arity 0 (.viewV ⟨.uint8, 0, 1, [0]⟩) [5]).1 rfl,
   (c8_getRandomValues_arity 3 (.viewV ⟨.uint8, 0, 1, [0]⟩) [5]).2 (by decide)⟩

/-- Claim C5 (code_bug): the failing input is a one-byte Uint8Array view at
byte offset 1 of a two-byte buffer.  The Provider answers the requested
single random byte 42, the call succeeds, but the byte is written at offset
0 of the underlying buffer, so the caller's view still shows its old byte 9:
the view is not filled in place with the Provider's bytes. -/
theorem c5_getRandomValues_offset_view_bug :
    cryptoGetRandomValues 1 (.viewV ⟨.uint8, 1, 1, [7, 9]⟩) [42] =
      ⟨some 1, .ok ⟨.uint8, 1, 1, [42, 9]⟩⟩ ∧
    viewBytes ⟨.uint8, 1, 1, [7, 9]⟩ = [9] ∧
    viewBytes ⟨.uint8, 1, 1, [42, 9]⟩ = [9] ∧
    ([9] : List Nat) ≠ [42] :=
  ⟨rfl, rfl, rfl, by decide⟩

/-- Claim C3 (confirmed): for every digest call with invalid arguments —
fewer than two arguments, an algorithm name outside the SHA family, or data
that is no byte buffer and no non-float view — the result is an asynchronous
rejection (never a synchronous throw, which the model would record as
`thrown`), and with enough arguments an unrecognized name is rejected with
the algorithm-name error. -/
theorem c3_digest_invalid_rejects (argCount : Nat) (algorithm data : JSVal)
    (provider : Except String (List Nat))
    (h : argCount < 2 ∨
      validAlgorithms.any (fun s => jsValEqStr algorithm s) = false ∨
      getBuffer data = none) :
    (∃ e, digest argCount algorithm data provider = .rejected e) ∧
    (2 ≤ argCount → validAlgorithms.any (fun s => jsValEqStr algorithm s) = false →
      digest argCount algorithm data provider = .rejected .unrecognizedName) := by
  constructor
  · by_cases h1 : argCount < 2
    · exact ⟨.notEnoughArgs "SubtleCrypto.digest", by simp [digest, h1]⟩
    · by_cases h2 : validAlgorithms.any (fun s => jsValEqStr algorithm s) = false
      · exact ⟨.unrecognizedName, by simp [digest, h1, h2]⟩
      · have h3 : getBuffer data = none := by
          rcases h with h | h | h
          · exact absurd h h1
          · exact absurd h h2
          · exact h
        refine ⟨.badArrayType, ?_⟩
        simp only [Bool.not_eq_false] at h2
        simp [digest, h1, h2, h3]
  · intro hge hname
    have h1 : ¬ argCount < 2 := by omega
    simp [digest, h1, hname]

/-- Witness for C3: a two-argument call with the unrecognized name MD5 and a
valid data buffer is rejected asynchronously with the algorithm-name error. -/
theorem c3_digest_invalid_rejects_witness :
    digest 2 (.strV "MD5") (.bufV [1, 2]) (.ok [3]) = .rejected .unrecognizedName :=
  (c3_digest_invalid_rejects 2 (.strV "MD5") (.bufV [1, 2]) (.ok [3])
    (Or.inr (Or.inl (by decide)))).2 (by decide) (by decide)

/-- Claim C6 (confirmed): for every encrypt or decrypt call that passes
validation, the Provider receives exactly the parameters built by
mkEncryptCall/mkDecryptCall, whose effective tagLength is 128 when the
supplied tagLength is absent or NaN and is the supplied number unchanged
otherwise. -/
theorem c6_tagLength_default (algorithm key data : JSVal)
    (pe pd : Except String (List Nat))
    (hv : aeadValidate algorithm key data = .ok ()) :
    (encrypt 3 algorithm key data pe).2 = some (mkEncryptCall algorithm key data) ∧
    (decrypt 3 algorithm key data pd).2 = some (mkDecryptCall algorithm key data) ∧
    ((jsGet algorithm "tagLength" = .undefV ∨ jsGet algorithm "tagLength" = .numV .nan) →
      (mkEncryptCall algorithm key data).tagLength = .numV (.fin 128) ∧
      (mkDecryptCall algorithm key data).tagLength = .numV (.fin 128)) ∧
    (∀ q : Int, jsGet algorithm "tagLength" = .numV (.fin q) →
      (mkEncryptCall algorithm key data).tagLength = .numV (.fin q) ∧
      (mkDecryptCall algorithm key data).tagLength = .numV (.fin q)) := by
  refine ⟨?_, ?_, ?_, ?_⟩
  · cases pe <;> simp [encrypt, hv]
  · cases pd <;> simp [decrypt, hv]
  · rintro (h | h) <;>
      simp [mkEncryptCall, mkDecryptCall, jsIsNaN, jsToNumber, h]
  · intro q h
    simp [mkEncryptCall, mkDecryptCall, jsIsNaN, jsToNumber, h]

/-- Witness for C6: a validated encrypt/decrypt descriptor without a
tagLength field reaches the Provider with tagLength 128, and the Provider
call is the one built by the parameter constructors. -/
theorem c6_tagLength_default_witness :
    (mkEncryptCall (.objV [("name", .strV "AES-GCM"), ("iv", .bufV [1, 2, 3])])
      (.keyV 7) (.bufV [4])).tagLength = .numV (.fin 128) ∧
    (mkDecryptCall (.objV [("name", .strV "AES-GCM"), ("iv", .bufV [1, 2, 3])])
      (.keyV 7) (.bufV [4])).tagLength = .numV (.fin 128) ∧
    (encrypt 3 (.objV [("name", .strV "AES-GCM"), ("iv", .bufV [1, 2, 3])])
      (.keyV 7) (.bufV [4]) (.ok [9])).2 =
      some (mkEncryptCall (.objV [("name", .strV "AES-GCM"), ("iv", .bufV [1, 2, 3])])
        (.keyV 7) (.bufV [4])) := by
  have h := c6_tagLength_default
    (.objV [("name", .strV "AES-GCM"), ("iv", .bufV [1, 2, 3])])
    (.keyV 7) (.bufV [4]) (.ok [9]) (.ok [9]) rfl
  exact ⟨(h.2.2.1 (Or.inl rfl)).1, (h.2.2.1 (Or.inl rfl)).2, h.1⟩

/-- Claim C10 (confirmed): with the other four arguments valid, importKey
accepts the bare string HKDF (storing it as the bare string, since the
collapse rule does not apply to strings) but rejects every structured
descriptor whose name field is HKDF with the algorithm-name enum error —
structured names are restricted to ECDH and AES-GCM. -/
theorem c10_importKey_hkdf_forms (format keyData extractable keyUsages : JSVal)
    (fields : List (String × JSVal)) (provider : Except String Unit)
    (hf : allowOnlyValues format ["spki", "pkcs8", "raw"] "format" = .ok ())
    (hk : checkBufferType keyData "keyData" = .ok ())
    (he : checkType extractable .booleanT "extractable" false = .ok ())
    (hu : checkType keyUsages .arrayT "keyUsages" false = .ok ())
    (hname : fields.lookup "name" = some (.strV "HKDF")) :
    importKey 5 format keyData (.strV "HKDF") extractable keyUsages (.ok ()) =
      .resolved ⟨.strV "HKDF", jsAsBool extractable, jsAsArr keyUsages, none⟩ ∧
    importKey 5 format keyData (.objV fields) extractable keyUsages provider =
      .thrown (.invalidValue "algorithm.name") := by
  constructor
  · have halg : importKeyAlgorithmValidate (.strV "HKDF") = .ok () := rfl
    have hval : importKeyValidate format keyData (.strV "HKDF") extractable keyUsages =
        .ok () := by
      simp only [importKeyValidate, hf, hk, halg, he, hu]
    have hkeys : jsKeys (JSVal.strV "HKDF") ≠ ["name"] := by decide
    simp [importKey, hval, algorithmInternalOf, hkeys]
  · have halg : importKeyAlgorithmValidate (.objV fields) =
        .error (.invalidValue "algorithm.name") := by
      simp [importKeyAlgorithmValidate, checkType, jsMatchesType, allowOnlyValues,
        jsGet, hname, jsValEqStr]
    simp [importKey, importKeyValidate, hf, hk, halg]

/-- Witness for C10: the bare string HKDF imports successfully while the
structured one-field descriptor with name HKDF is rejected. -/
theorem c10_importKey_hkdf_forms_witness :
    importKey 5 (.strV "raw") (.bufV []) (.strV "HKDF") (.boolV false) (.arrV [])
      (.ok ()) = .resolved ⟨.strV "HKDF", false, [], none⟩ ∧
    importKey 5 (.strV "raw") (.bufV []) (.objV [("name", .strV "HKDF")])
      (.boolV false) (.arrV []) (.ok ()) =
      .thrown (.invalidValue "algorithm.name") := by
  have h := c10_importKey_hkdf_forms (.strV "raw") (.bufV []) (.boolV false)
    (.arrV []) [("name", .strV "HKDF")] (.ok ()) rfl rfl rfl rfl rfl
  exact ⟨h.1, h.2⟩

/-- Claim C4 (confirmed): for every successful importKey call, a descriptor
supplied as a one-field record with only a name is collapsed to that bare
name on the stored algorithm attribute, the two-field ECDH descriptor is
stored unchanged, the stored usages are the (frozen) copy of the caller's
array elements, and the stored extractable equals the caller's flag. -/
theorem c4_importKey_normalization (format keyData algorithm extractable keyUsages : JSVal)
    (provider : Except String Unit) (ck : CryptoKeyVal)
    (h : importKey 5 format keyData algorithm extractable keyUsages provider =
      .resolved ck) :
    (∀ X : String, algorithm = .objV [("name", .strV X)] → ck.algorithm = .strV X) ∧
    (algorithm = .objV [("name", .strV "ECDH"), ("namedCurve", .strV "P-256")] →
      ck.algorithm = algorithm) ∧
    (∀ elems, keyUsages = .arrV elems → ck.usages = elems) ∧
    (∀ b, extractable = .boolV b → ck.extractable = b) := by
  obtain ⟨ca, ce, cu, ct⟩ := ck
  have hfields : algorithmInternalOf algorithm = ca ∧ jsAsBool extractable = ce ∧
      jsAsArr keyUsages = cu := by
    cases hv : importKeyValidate format keyData algorithm extractable keyUsages with
    | error e => simp [importKey, hv] at h
    | ok u =>
      cases provider with
      | error r => simp [importKey, hv] at h
      | ok u2 =>
        simp [importKey, hv] at h
        exact ⟨h.1, h.2.1, h.2.2.1⟩
  obtain ⟨h1, h2, h3⟩ := hfields
  refine ⟨?_, ?_, ?_, ?_⟩
  · intro X hX
    subst hX
    rw [← h1]
    simp [algorithmInternalOf, jsKeys, jsGet]
  · intro hA
    rw [← h1, hA]
    have hkeys : jsKeys (JSVal.objV
        [("name", .strV "ECDH"), ("namedCurve", .strV "P-256")]) ≠ ["name"] := by decide
    simp [algorithmInternalOf, hkeys]
  · intro elems hU
    subst hU
    rw [← h3]
    rfl
  · intro b hb
    subst hb
    rw [← h2]
    rfl

/-- Witness for C4: importing a bare-shaped AES-GCM descriptor succeeds and
the stored algorithm is the collapsed bare string, with the caller's usages
copy and extractable flag. -/
theorem c4_importKey_normalization_witness :
    (⟨.strV "AES-GCM", false, [.strV "encrypt"], none⟩ : CryptoKeyVal).algorithm =
      .strV "AES-GCM" ∧
    (⟨.strV "AES-GCM", false, [.strV "encrypt"], none⟩ : CryptoKeyVal).usages =
      [.strV "encrypt"] ∧
    (⟨.strV "AES-GCM", false, [.strV "encrypt"], none⟩ : CryptoKeyVal).extractable =
      false := by
  have h := c4_importKey_normalization (.strV "raw") (.bufV [])
    (.objV [("name", .strV "AES-GCM")]) (.boolV false) (.arrV [.strV "encrypt"])
    (.ok ()) ⟨.strV "AES-GCM", false, [.strV "encrypt"], none⟩ rfl
  exact ⟨h.1 "AES-GCM" rfl, h.2.2.1 [.strV "encrypt"] rfl, h.2.2.2 false rfl⟩

/-- The error that the derive-algorithm gate produces (its value when the
gate passes is arbitrary and never used). -/
def deriveGateError (algorithm : JSVal) : Err :=
  match checkDeriveAlgorithm algorithm with
  | .error e => e
  | .ok _ => .aesGcmNotSupported

theorem c1_checkDerive_err (algorithm : JSVal)
    (h : algorithm = .strV "AES-GCM" ∨ jsGet algorithm "name" = .strV "AES-GCM") :
    checkDeriveAlgorithm algorithm = .error (deriveGateError algorithm) ∧
    ((algorithm = .strV "AES-GCM" ∨ ∀ k ∈ jsKeys algorithm, k ∈ deriveDescriptorKeys) →
      (deriveGateError algorithm).isAlgorithmMismatch = true) := by
  rcases h with h | h
  · subst h
    exact ⟨rfl, fun _ => rfl⟩
  · have hobj : ∃ fields, algorithm = JSVal.objV fields := by
      cases algorithm <;> first
        | exact ⟨_, rfl⟩
        | simp [jsGet] at h
    obtain ⟨fields, rfl⟩ := hobj
    cases hk : allowOnlyKeys (.objV fields) deriveDescriptorKeys with
    | error e =>
      have hc : checkDeriveAlgorithm (.objV fields) = .error e := by
        simp [checkDeriveAlgorithm, jsValEqStr, hk]
      refine ⟨by rw [hc, deriveGateError, hc], ?_⟩
      rintro (habs | hsub)
      · simp at habs
      · have hok := allowOnlyKeys_ok_of_subset (.objV fields) deriveDescriptorKeys hsub
        rw [hok] at hk
        cases hk
    | ok u =>
      have hval : allowOnlyValues (jsGet (.objV fields) "name") ["ECDH", "HKDF"]
          "algorithm.name" = .error (.invalidValue "algorithm.name") := by
        rw [h]
        rfl
      have hc : checkDeriveAlgorithm (.objV fields) =
          .error (.invalidValue "algorithm.name") := by
        simp [checkDeriveAlgorithm, jsValEqStr, hk, hval]
      refine ⟨by rw [hc, deriveGateError, hc], fun _ => ?_⟩
      rw [deriveGateError, hc]
      rfl

/-- Claim C1 (corrected): a deriveBits or deriveKey call whose algorithm is
the bare string AES-GCM, or a structured descriptor whose name is AES-GCM,
always fails before any Provider call is issued (the event trace is empty);
the error is an AlgorithmMismatchError for the bare string and for every
descriptor whose keys all lie in the derive-descriptor key set, while a
descriptor carrying an extraneous key fails with the key-validation error
instead. -/
theorem c1_derive_rejects_aesgcm
    (algorithm baseKey length derivedKeyAlgorithm extractable keyUsages : JSVal)
    (dOut1 dOut2 : Except String Unit) (eOut : Except String (List Nat))
    (h : algorithm = .strV "AES-GCM" ∨ jsGet algorithm "name" = .strV "AES-GCM") :
    deriveBits 3 algorithm baseKey length dOut1 eOut =
      (.thrown (deriveGateError algorithm), []) ∧
    deriveKey 5 algorithm baseKey derivedKeyAlgorithm extractable keyUsages dOut2 =
      (.thrown (deriveGateError algorithm), []) ∧
    ((algorithm = .strV "AES-GCM" ∨ ∀ k ∈ jsKeys algorithm, k ∈ deriveDescriptorKeys) →
      (deriveGateError algorithm).isAlgorithmMismatch = true) := by
  obtain ⟨he, hm⟩ := c1_checkDerive_err algorithm h
  refine ⟨?_, ?_, hm⟩
  · simp [deriveBits, deriveBitsValidate, he]
  · simp [deriveKey, deriveKeyValidate, he]

/-- Witness for C1: the bare string AES-GCM is rejected by both derive
operations without any Provider event, with the mismatch error. -/
theorem c1_derive_rejects_aesgcm_witness :
    deriveBits 3 (.strV "AES-GCM") (.keyV 0) (.numV (.fin 8)) (.ok ()) (.ok []) =
      (.thrown (deriveGateError (.strV "AES-GCM")), []) ∧
    deriveKey 5 (.strV "AES-GCM") (.keyV 0)
      (.objV [("name", .strV "AES-GCM"), ("length", .numV (.fin 128))])
      (.boolV true) (.arrV []) (.ok ()) =
      (.thrown (deriveGateError (.strV "AES-GCM")), []) ∧
    (deriveGateError (.strV "AES-GCM")).isAlgorithmMismatch = true := by
  have h := c1_derive_rejects_aesgcm (.strV "AES-GCM") (.keyV 0) (.numV (.fin 8))
    (.objV [("name", .strV "AES-GCM"), ("length", .numV (.fin 128))])
    (.boolV true) (.arrV []) (.ok ()) (.ok ()) (.ok []) (Or.inl rfl)
  exact ⟨h.1, h.2.1, h.2.2 (Or.inl rfl)⟩

/-- Counterexample for claim C1: a structured descriptor with name AES-GCM
that also carries the encrypt-style iv key fails with the key-validation
error, which is not an AlgorithmMismatchError — so the claim's promised
error class does not hold for every such call. -/
theorem c1_counterexample :
    deriveBits 3 (.objV [("name", .strV "AES-GCM"), ("iv", .bufV [1])])
      (.keyV 0) (.numV (.fin 8)) (.ok ()) (.ok []) =
      (.thrown (.disallowedKey "iv"), []) ∧
    Err.isAlgorithmMismatch (.disallowedKey "iv") = false :=
  ⟨rfl, rfl⟩

/-- Claim C2 (confirmed): for every deriveBits call that passes validation,
the transient key is disposed on both exit paths — after the Provider
rejects the derive step, and after a successful derive once the export
request has been issued — and in both traces the disposal precedes the point
where the operation's result settles. -/
theorem c2_deriveBits_transient_disposed (algorithm baseKey length : JSVal)
    (deriveOutcome : Except String Unit) (exportOutcome : Except String (List Nat))
    (h : deriveBitsValidate algorithm baseKey length = .ok ()) :
    (∀ reason, deriveOutcome = .error reason →
      (deriveBits 3 algorithm baseKey length deriveOutcome exportOutcome).2 =
        [.createKey, .deriveCall, .dispose, .settle]) ∧
    (deriveOutcome = .ok () →
      (deriveBits 3 algorithm baseKey length deriveOutcome exportOutcome).2 =
        [.createKey, .deriveCall, .exportCall, .dispose, .settle]) := by
  constructor
  · intro reason hr
    subst hr
    simp [deriveBits, h]
  · intro hr
    subst hr
    cases exportOutcome <;> simp [deriveBits, h]

/-- Witness for C2: a valid HKDF deriveBits call is traced with the disposal
before settling both when the Provider refuses the derive step and when the
whole operation succeeds. -/
theorem c2_deriveBits_transient_disposed_witness :
    (deriveBits 3 (.strV "HKDF") (.keyV 1) (.numV (.fin 256))
      (.error "refused") (.ok [])).2 =
      [.createKey, .deriveCall, .dispose, .settle] ∧
    (deriveBits 3 (.strV "HKDF") (.keyV 1) (.numV (.fin 256))
      (.ok ()) (.ok [0])).2 =
      [.createKey, .deriveCall, .exportCall, .dispose, .settle] :=
  ⟨(c2_deriveBits_transient_disposed (.strV "HKDF") (.keyV 1) (.numV (.fin 256))
      (.error "refused") (.ok []) rfl).1 "refused" rfl,
   (c2_deriveBits_transient_disposed (.strV "HKDF") (.keyV 1) (.numV (.fin 256))
      (.ok ()) (.ok [0]) rfl).2 rfl⟩

end Tabris
